import Mathlib

/-!
Declarations of `BlankApp/MainPage.h` and `BlankAppCX/App.xaml.h`.

Both source files consist of declarations only.  They are embedded as data: a small
syntax tree of namespaces, class heads, members and types, written down token by token
from the headers, together with the functions that read a declaration (which members
are methods, which carry state, which names a declaration mentions).  The theorems
then evaluate those functions on the two headers.
-/

namespace WinUI3Migration

/-! ## Syntax of the declarations -/

/-- A qualified name, one string per `::`-separated component. -/
abbrev QName := List String

/-- The type expressions that occur in the two headers. -/
inductive TypeExpr where
  /-- The type `void`. -/
  | void
  /-- The type `int32_t`, the 32-bit signed integer. -/
  | int32_t
  /-- A type `T const&`. -/
  | constRef (name : QName)
  /-- A type `T^`, a C++/CX handle to a reference-counted object. -/
  | hat (name : QName)
  /-- A class named without qualifier or with one, used by value (template argument). -/
  | named (name : QName)
  deriving DecidableEq, Repr

/-- A function parameter: its type and its name. -/
structure Param where
  type : TypeExpr
  name : String
  deriving DecidableEq, Repr

/-- Access sections of a class body. -/
inductive Access where
  /-- Members after `public:`, and all members of a `struct` without a label. -/
  | pub
  /-- Members after `private:`. -/
  | priv
  /-- Members after `internal:` (C++/CX). -/
  | internal
  deriving DecidableEq, Repr

/-- A brace initializer of a data member. -/
inductive Initializer where
  /-- The initializer `{ nullptr }`. -/
  | nullptr
  deriving DecidableEq, Repr

/-- A member declaration of a class body. -/
inductive Member where
  /-- A constructor declaration `C(params);`. -/
  | ctor (access : Access) (params : List Param)
  /-- A member function declaration
  `[virtual] ret name(params) [override];`. -/
  | method (access : Access) (isVirtual : Bool) (ret : TypeExpr) (name : String)
      (params : List Param) (isOverride : Bool)
  /-- A data member declaration `type name [init];`. -/
  | field (access : Access) (type : TypeExpr) (name : String) (init : Option Initializer)
  deriving DecidableEq, Repr

/-- The class-key of a class head. -/
inductive ClassKey where
  /-- The keyword `struct`. -/
  | struct
  /-- The keywords `ref class` (C++/CX). -/
  | refClass
  deriving DecidableEq, Repr

/-- A base-class specifier `Template<args>`. -/
structure BaseSpec where
  template : String
  args : List TypeExpr
  deriving DecidableEq, Repr

/-- A class declaration: head and body. -/
structure ClassDecl where
  key : ClassKey
  name : String
  isSealed : Bool
  bases : List BaseSpec
  members : List Member
  deriving DecidableEq, Repr

/-- A namespace definition with the classes declared in it. -/
structure NamespaceDecl where
  name : QName
  classes : List ClassDecl
  deriving DecidableEq, Repr

/-- A header file: its directory under the repository, its file name, its `#include`
lines and its namespaces. -/
structure SourceFile where
  dir : String
  name : String
  includes : List String
  namespaces : List NamespaceDecl
  deriving DecidableEq, Repr

/-! ## `src/BlankApp/MainPage.h` -/

/-- The declaration `struct MainPage : MainPageT<MainPage>` of namespace
`winrt::BlankApp::implementation`. -/
def MainPage : ClassDecl :=
  { key := .struct
    name := "MainPage"
    isSealed := false
    bases := [⟨"MainPageT", [.named ["MainPage"]]⟩]
    members :=
      [ .ctor .pub [],
        .method .pub false .int32_t "MyProperty" [] false,
        .method .pub false .void "MyProperty" [⟨.int32_t, "value"⟩] false,
        .method .pub false .void "ClickHandler"
          [ ⟨.constRef ["Windows", "Foundation", "IInspectable"], "sender"⟩,
            ⟨.constRef ["Windows", "UI", "Xaml", "RoutedEventArgs"], "args"⟩ ] false ] }

/-- The declaration `struct MainPage : MainPageT<MainPage, implementation::MainPage>` of
namespace `winrt::BlankApp::factory_implementation`; its body is empty. -/
def MainPageFactory : ClassDecl :=
  { key := .struct
    name := "MainPage"
    isSealed := false
    bases := [⟨"MainPageT", [.named ["MainPage"], .named ["implementation", "MainPage"]]⟩]
    members := [] }

/-- The file `src/BlankApp/MainPage.h`. -/
def MainPage_h : SourceFile :=
  { dir := "BlankApp"
    name := "MainPage.h"
    includes := ["MainPage.g.h"]
    namespaces :=
      [ ⟨["winrt", "BlankApp", "implementation"], [MainPage]⟩,
        ⟨["winrt", "BlankApp", "factory_implementation"], [MainPageFactory]⟩ ] }

/-! ## `src/BlankAppCX/App.xaml.h` -/

/-- The declaration `ref class App sealed` of namespace `BlankAppCX`. -/
def App : ClassDecl :=
  { key := .refClass
    name := "App"
    isSealed := true
    bases := []
    members :=
      [ .method .pub true .void "OnLaunched"
          [⟨.hat ["Microsoft", "UI", "Xaml", "LaunchActivatedEventArgs"], "e"⟩] true,
        .field .priv (.hat ["Microsoft", "UI", "Xaml", "Window"]) "window" (some .nullptr),
        .ctor .internal [] ] }

/-- The file `src/BlankAppCX/App.xaml.h`. -/
def App_xaml_h : SourceFile :=
  { dir := "BlankAppCX"
    name := "App.xaml.h"
    includes := ["App.g.h"]
    namespaces := [⟨["BlankAppCX"], [App]⟩] }

/-- The source files of the repository. -/
def sourceFiles : List SourceFile := [MainPage_h, App_xaml_h]

/-! ## Reading a declaration -/

/-- A member function declaration as the statements below speak of it. -/
structure Signature where
  access : Access
  isVirtual : Bool
  ret : TypeExpr
  name : String
  params : List Param
  isOverride : Bool
  deriving DecidableEq, Repr

/-- The signature of a member, when the member is a member function other than a
constructor. -/
def Member.signature? : Member → Option Signature
  | .method a v r n ps o => some ⟨a, v, r, n, ps, o⟩
  | _ => none

/-- Whether a member is a constructor declaration. -/
def Member.isCtor : Member → Bool
  | .ctor _ _ => true
  | _ => false

/-- Whether a member is a member function of the given name. -/
def Member.isMethodNamed (n : String) : Member → Bool
  | .method _ _ _ m _ _ => m == n
  | _ => false

/-- The member functions of a class other than its constructors, in declaration order. -/
def ClassDecl.methods (c : ClassDecl) : List Signature :=
  c.members.filterMap Member.signature?

/-- The constructors of a class. -/
def ClassDecl.ctors (c : ClassDecl) : List Member :=
  c.members.filter Member.isCtor

/-- A data member as declared: type, name, initializer. -/
structure Field where
  access : Access
  type : TypeExpr
  name : String
  init : Option Initializer
  deriving DecidableEq, Repr

/-- The data member a member declares, if it is one. -/
def Member.field? : Member → Option Field
  | .field a t n i => some ⟨a, t, n, i⟩
  | _ => none

/-- The data members of a class, in declaration order. -/
def ClassDecl.fields (c : ClassDecl) : List Field :=
  c.members.filterMap Member.field?

/-- A property of a projected runtime class: an accessor pair sharing one name.  The
getter is the overload without parameters that returns a value. -/
structure Property where
  name : String
  type : TypeExpr
  deriving DecidableEq, Repr

/-- The property a signature is the getter of: a function without parameters whose
result is not `void`. -/
def Signature.getter? (s : Signature) : Option Property :=
  if s.params = [] ∧ s.ret ≠ .void then some ⟨s.name, s.ret⟩ else none

/-- Whether a signature is a setter of the property: same name, result `void`, exactly
one parameter. -/
def Signature.isSetterOf (p : Property) (s : Signature) : Bool :=
  s.name == p.name && s.ret == .void && s.params.length == 1

/-- The properties of a class: one per getter. -/
def ClassDecl.properties (c : ClassDecl) : List Property :=
  c.methods.filterMap Signature.getter?

/-- The setters a class declares for a property. -/
def ClassDecl.setters (c : ClassDecl) (p : Property) : List Signature :=
  c.methods.filter (Signature.isSetterOf p)

/-- Whether a signature has the shape of a XAML event callback: result `void`, a
sender `IInspectable const&` and an event-argument object `RoutedEventArgs const&`. -/
def Signature.isEventCallback (s : Signature) : Bool :=
  s.ret == .void &&
    s.params.map Param.type ==
      [ .constRef ["Windows", "Foundation", "IInspectable"],
        .constRef ["Windows", "UI", "Xaml", "RoutedEventArgs"] ]

/-- Whether a member function is dispatched dynamically as far as its declaration
says: it is declared `virtual` or declared `override`. -/
def Signature.isDynamic (s : Signature) : Bool :=
  s.isVirtual || s.isOverride

/-- All classes declared in a file. -/
def SourceFile.classes (f : SourceFile) : List ClassDecl :=
  f.namespaces.flatMap NamespaceDecl.classes

/-- The member functions of the classes of a namespace, each with the qualified name of
its class. -/
def NamespaceDecl.methods (n : NamespaceDecl) : List (QName × Signature) :=
  n.classes.flatMap fun c => c.methods.map fun s => (n.name ++ [c.name], s)

/-- All member functions (constructors apart) declared in a file. -/
def SourceFile.methods (f : SourceFile) : List (QName × Signature) :=
  f.namespaces.flatMap NamespaceDecl.methods

/-! ## State declared by the classes -/

/-- A piece of state a class declares: a property (the value behind an accessor pair)
or a data member.  The owner is the qualified name of the class. -/
inductive StateEntity where
  /-- The value behind a property of the class. -/
  | property (owner : QName) (p : Property)
  /-- A data member of the class. -/
  | field (owner : QName) (f : Field)
  deriving DecidableEq, Repr

/-- The state the classes of a namespace declare: for each class its properties, then
its data members. -/
def NamespaceDecl.state (n : NamespaceDecl) : List StateEntity :=
  n.classes.flatMap fun c =>
    c.properties.map (StateEntity.property (n.name ++ [c.name])) ++
      c.fields.map (StateEntity.field (n.name ++ [c.name]))

/-- The state declared in a file. -/
def SourceFile.state (f : SourceFile) : List StateEntity :=
  f.namespaces.flatMap NamespaceDecl.state

/-- The integer property of the page: `winrt::BlankApp::implementation::MainPage::MyProperty`. -/
def pageProperty : StateEntity :=
  .property ["winrt", "BlankApp", "implementation", "MainPage"] ⟨"MyProperty", .int32_t⟩

/-- The data member `BlankAppCX::App::window`. -/
def windowField : StateEntity :=
  .field ["BlankAppCX", "App"]
    ⟨.priv, .hat ["Microsoft", "UI", "Xaml", "Window"], "window", some .nullptr⟩

/-! ## Names declared and names mentioned -/

/-- The class names a type expression mentions. -/
def TypeExpr.mentions : TypeExpr → List QName
  | .void => []
  | .int32_t => []
  | .constRef n => [n]
  | .hat n => [n]
  | .named n => [n]

/-- The names the types of a member mention: parameter types, result type, type of a
data member. -/
def Member.mentions : Member → List QName
  | .ctor _ ps => ps.flatMap fun p => p.type.mentions
  | .method _ _ r _ ps _ => r.mentions ++ ps.flatMap fun p => p.type.mentions
  | .field _ t _ _ => t.mentions

/-- The identifiers a member introduces: its own name (a constructor introduces none,
it is named after the class) and the names of its parameters. -/
def Member.declares : Member → List String
  | .ctor _ ps => ps.map Param.name
  | .method _ _ _ n ps _ => n :: ps.map Param.name
  | .field _ _ n _ => [n]

/-- The names a class declaration mentions: its base templates, their arguments, and
what the members mention. -/
def ClassDecl.mentions (c : ClassDecl) : List QName :=
  (c.bases.flatMap fun b => [b.template] :: b.args.flatMap TypeExpr.mentions) ++
    c.members.flatMap Member.mentions

/-- The identifiers a class declaration introduces. -/
def ClassDecl.declares (c : ClassDecl) : List String :=
  c.name :: c.members.flatMap Member.declares

/-- The names mentioned anywhere in a file. -/
def SourceFile.mentions (f : SourceFile) : List QName :=
  f.classes.flatMap ClassDecl.mentions

/-- The identifiers a file introduces: the components of its namespace names and what
its classes introduce. -/
def SourceFile.declares (f : SourceFile) : List String :=
  f.namespaces.flatMap fun n => n.name ++ n.classes.flatMap ClassDecl.declares

/-- Whether namespace `a` is namespace `b` or encloses it: the components of `a` start
the components of `b`. -/
def encloses : QName → QName → Bool
  | [], _ => true
  | _ :: _, [] => false
  | x :: a, y :: b => x == y && encloses a b

/-! ## Objects -/

/-- The value held by a data member of handle type. -/
inductive Value where
  /-- The null handle. -/
  | nullptr
  /-- A handle to the object at the given address. -/
  | object (address : Nat)
  deriving DecidableEq, Repr

/-- The value an initializer denotes. -/
def Initializer.eval : Initializer → Value
  | .nullptr => .nullptr

/-- The values of the data members of an object, by name. -/
abbrev Slots := List (String × Value)

/-- The slot a default member initializer fills when an object is created. -/
def Field.initialSlot? (f : Field) : Option (String × Value) :=
  f.init.map fun i => (f.name, i.eval)

/-- The state the default member initializers of a class establish. -/
def ClassDecl.initialState (c : ClassDecl) : Slots :=
  c.fields.filterMap Field.initialSlot?

/-- An object of a class: the class and the values of its data members. -/
structure Object where
  cls : ClassDecl
  slots : Slots
  deriving DecidableEq, Repr

/-- The number of parameters of a constructor declaration. -/
def Member.ctorArity? : Member → Option Nat
  | .ctor _ ps => some ps.length
  | _ => none

/-- Creating an object from arguments: the class has to declare a constructor with that
many parameters; the default member initializers fill the data members first, then the
body of the constructor runs on the object. -/
def ClassDecl.construct? (c : ClassDecl) (body : List Value → Object → Object)
    (args : List Value) : Option Object :=
  if args.length ∈ c.members.filterMap Member.ctorArity? then
    some (body args ⟨c, c.initialState⟩)
  else
    none

/-! ## The life of the application object

`App.xaml.h` declares the constructor `App();` (line 24) and the hook `OnLaunched`
(line 18); their definitions are not among the provided sources.  The two bodies below
follow the specification, which has the application class "create a window on launch"
and describes the launch hook as the place "where initial window/view setup occurs". -/

/-- Modelled from the spec: the body of the constructor `App::App()`, declared in
`App.xaml.h` and defined outside the provided sources.  The specification gives the
application component one behaviour, "overriding a single lifecycle hook to construct a
window", and places "initial window/view setup" in that hook; construction does no
window setup, so the body leaves the data members as the default member initializers
set them. -/
def App.ctor (_args : List Value) (o : Object) : Object :=
  o

/-- C1: `MainPage` exposes exactly one property, `MyProperty`, of type `int32_t`.  The
overloads named `MyProperty` are exactly a public getter without parameters returning
`int32_t` and a public setter with the single parameter `int32_t value` returning
`void`; the type the setter takes is the type the getter returns; `MainPage` has no
data member beside it. -/
theorem MainPage_exposes_one_int32_property :
    MainPage.properties = [⟨"MyProperty", .int32_t⟩] ∧
    MainPage.methods.filter (fun s => s.name == "MyProperty") =
      [ ⟨.pub, false, .int32_t, "MyProperty", [], false⟩,
        ⟨.pub, false, .void, "MyProperty", [⟨.int32_t, "value"⟩], false⟩ ] ∧
    MainPage.setters ⟨"MyProperty", .int32_t⟩ =
      [⟨.pub, false, .void, "MyProperty", [⟨.int32_t, "value"⟩], false⟩] ∧
    (∀ p ∈ MainPage.properties, ∀ s ∈ MainPage.setters p,
      s.ret = .void ∧ s.params.map Param.type = [p.type]) ∧
    MainPage.fields = [] := by
  decide

/-- C2: `MainPage` exposes exactly one event callback, `ClickHandler`, a public
function returning `void` that takes the sender (`IInspectable const&`) and the
routed-event arguments (`RoutedEventArgs const&`).  The class body has four members:
one constructor, the two `MyProperty` accessors and `ClickHandler`, so nothing else is
left once the constructor and the accessors are set aside. -/
theorem MainPage_exposes_one_event_callback :
    MainPage.methods.filter Signature.isEventCallback =
      [ ⟨.pub, false, .void, "ClickHandler",
          [ ⟨.constRef ["Windows", "Foundation", "IInspectable"], "sender"⟩,
            ⟨.constRef ["Windows", "UI", "Xaml", "RoutedEventArgs"], "args"⟩ ], false⟩ ] ∧
    MainPage.members.filter (fun m => !m.isCtor && !m.isMethodNamed "MyProperty") =
      [ .method .pub false .void "ClickHandler"
          [ ⟨.constRef ["Windows", "Foundation", "IInspectable"], "sender"⟩,
            ⟨.constRef ["Windows", "UI", "Xaml", "RoutedEventArgs"], "args"⟩ ] false ] ∧
    MainPage.ctors = [.ctor .pub []] ∧
    (MainPage.members.filter (Member.isMethodNamed "MyProperty")).length = 2 ∧
    MainPage.members.length = 4 := by
  decide

/-! ## The application component -/

/-- C3: `OnLaunched` is the only member function `App` declares beside its
constructor; it is public, takes the launch-activation arguments
(`LaunchActivatedEventArgs^ e`), returns `void` and is declared `override`. -/
theorem App_overrides_only_OnLaunched :
    App.methods =
      [ ⟨.pub, true, .void, "OnLaunched",
          [⟨.hat ["Microsoft", "UI", "Xaml", "LaunchActivatedEventArgs"], "e"⟩], true⟩ ] ∧
    App.methods.filter (fun s => s.isOverride) =
      [ ⟨.pub, true, .void, "OnLaunched",
          [⟨.hat ["Microsoft", "UI", "Xaml", "LaunchActivatedEventArgs"], "e"⟩], true⟩ ] ∧
    App.ctors = [.ctor .internal []] ∧
    (App.members.filter fun m => !m.isCtor && (m.signature?).isSome).length = 1 := by
  decide

/-! ## Dynamic dispatch -/

/-- C4, as stated, fails: it is not the case that no member function of the two files
is declared `virtual` or `override`, since `BlankAppCX::App::OnLaunched` is declared
both. -/
theorem some_method_is_dynamic :
    ¬ (∀ f ∈ sourceFiles, ∀ m ∈ f.methods, m.2.isDynamic = false) := by
  decide

/-- C4, amended: no member function declared in `MainPage.h` is declared `virtual` or
`override`; in `App.xaml.h` exactly one is, `BlankAppCX::App::OnLaunched`, which is
declared both `virtual` and `override`. -/
theorem only_OnLaunched_is_dynamic :
    MainPage_h.methods.filter (fun m => m.2.isDynamic) = [] ∧
    App_xaml_h.methods.filter (fun m => m.2.isDynamic) =
      [ (["BlankAppCX", "App"],
          ⟨.pub, true, .void, "OnLaunched",
            [⟨.hat ["Microsoft", "UI", "Xaml", "LaunchActivatedEventArgs"], "e"⟩], true⟩) ] := by
  decide

/-! ## Declared state -/

/-- C5, as stated, fails: the state the two files declare is not only the integer
property of the page, since `BlankAppCX::App` declares the data member `window`. -/
theorem page_property_is_not_the_only_state :
    ¬ (∀ f ∈ sourceFiles, ∀ e ∈ f.state, e = pageProperty) := by
  decide

/-- C5, amended: the state the two files declare is the integer property `MyProperty`
of the page and the private data member `window` of `App`, a `Window^` initialised to
`nullptr`; no class declares any other property or data member. -/
theorem declared_state_is_property_and_window :
    sourceFiles.flatMap SourceFile.state = [pageProperty, windowField] ∧
    MainPage_h.state = [pageProperty] ∧
    App_xaml_h.state = [windowField] := by
  decide

/-! ## Independence of the two files -/

/-- C6: the two files are independent.  No component of a name mentioned in
`MainPage.h` is an identifier introduced in `App.xaml.h`, nor the other way round (so
no parameter, result or data-member type of one component names the other component,
its namespace or its members); neither file includes the other; no namespace of one file is a namespace of the other
or encloses one; and no piece of state is declared by both. -/
theorem files_are_independent :
    (∀ q ∈ MainPage_h.mentions, ∀ x ∈ q, x ∉ App_xaml_h.declares) ∧
    (∀ q ∈ App_xaml_h.mentions, ∀ x ∈ q, x ∉ MainPage_h.declares) ∧
    App_xaml_h.name ∉ MainPage_h.includes ∧
    MainPage_h.name ∉ App_xaml_h.includes ∧
    (∀ n ∈ MainPage_h.namespaces, ∀ m ∈ App_xaml_h.namespaces,
      encloses n.name m.name = false ∧ encloses m.name n.name = false) ∧
    (∀ e ∈ MainPage_h.state, e ∉ App_xaml_h.state) := by
  decide

/-! ## The application object before launch -/

/-- Creating an `App` with `App()` succeeds and yields the object whose `window` is
null. -/
theorem App_construct :
    ClassDecl.construct? App App.ctor [] = some ⟨App, [("window", Value.nullptr)]⟩ := by
  decide

end WinUI3Migration
